import Mathlib

/-
Verification of the BitBucketRepositoryProvider module
(src/package_control/providers/bitbucket_repository_provider.py).

The embedding models Python dicts as association lists over a type PyVal of
Python values, the external BitBucketClient as an oracle structure of two
functions (its code lives outside this repository), get_packages as a state
transformer over the provider instance that additionally returns the trace of
API-client calls it makes, Python exceptions (KeyError from a missing dict
field) as Except.error, and the match_url regular expression by a
Brzozowski-derivative matcher applied to a direct transcription of the
pattern, with Python re semantics for the dot and the dollar anchor.
-/

set_option autoImplicit false

/-- A Python value as used by this module: strings, None, booleans,
lists, and string-keyed dicts. -/
inductive PyVal where
  | str : String → PyVal
  | pynone : PyVal
  | pybool : Bool → PyVal
  | plist : List PyVal → PyVal
  | pdict : List (String × PyVal) → PyVal

/-- A Python dict with string keys, as returned by the API client. -/
abbrev Dict := List (String × PyVal)

/-- The settings dict passed to the provider constructor and forwarded,
untouched, to the API client. -/
abbrev Settings := Dict

/-- The value memoized in the provider cache and returned by get_packages:
either the Python literal False (the failure sentinel) or the single-entry
packages mapping, whose key is the name value from the repo-info response. -/
inductive GPValue where
  | gpFalse : GPValue
  | gpPackages : List (PyVal × PyVal) → GPValue

/-- One outbound call to the API client collaborator. -/
inductive ApiCall where
  | repoInfo : String → ApiCall
  | downloadInfo : String → ApiCall

/-- The external API client collaborator (clients.bitbucket_client.BitBucketClient),
modeled as an oracle: each method maps a repo URL to either a parsed dict or
the Python failure sentinel False, modeled as Option.none. -/
structure BitBucketClient where
  repo_info : String → Option Dict
  download_info : String → Option Dict

/-- The provider instance state: the fields set by the constructor. -/
structure BitBucketRepositoryProvider where
  cache : List (String × GPValue)
  repo : String
  settings : Settings

/-- The observable outcome of one get_packages call: the returned value (or a
propagated Python exception, as Except.error), the provider state afterwards,
and the trace of API-client calls made during the call. -/
structure GPOutcome where
  result : Except String GPValue
  state : BitBucketRepositoryProvider
  calls : List ApiCall

/-- Python dict lookup d.get(k) style helper: the first binding of key k. -/
def lookupKey {α : Type} (k : String) : List (String × α) → Option α
  | [] => Option.none
  | (k1, v1) :: rest => if k = k1 then some v1 else lookupKey k rest

/-- Python subscription d[k]: the value at key k, or a KeyError if absent. -/
def pyIndex (d : Dict) (k : String) : Except String PyVal :=
  match lookupKey k d with
  | some v => Except.ok v
  | Option.none => Except.error ("KeyError: " ++ k)

/-- Python d.get(k): the value at key k, or None if absent. -/
def pyGet (d : Dict) (k : String) : PyVal :=
  match lookupKey k d with
  | some v => v
  | Option.none => PyVal.pynone

/-- Python dict assignment d[k] = v: replace the binding of k in place, or
append it when absent. -/
def setKey {α : Type} : List (String × α) → String → α → List (String × α)
  | [], k, v => [(k, v)]
  | (k1, v1) :: rest, k, v =>
    if k1 = k then (k, v) :: rest else (k1, v1) :: setKey rest k v

/-- The constructor: self.cache = {}; self.repo = repo; self.settings = settings. -/
def initProvider (repo : String) (settings : Settings) : BitBucketRepositoryProvider :=
  ⟨[], repo, settings⟩

/- ----------------------------------------------------------------------
Regular expressions, for match_url.  The pattern in the source is
  re.search('^https?://bitbucket.org/([^/]+/[^/]+)/?$', repo) != None
and is embedded below with Python re semantics: the unescaped dot matches any
character except a newline, a [^/] class matches any character except the
slash (newlines included), and the dollar anchor matches at the end of the
string or just before a newline that ends the string.
---------------------------------------------------------------------- -/

/-- Regular expression syntax: the constructs the match_url pattern uses. -/
inductive Re where
  | emptySet : Re
  | epsilon : Re
  | chr : Char → Re
  | anyNotNL : Re
  | notChar : Char → Re
  | cat : Re → Re → Re
  | alt : Re → Re → Re
  | star : Re → Re

/-- Whether a regular expression accepts the empty string. -/
def reNullable : Re → Bool
  | Re.emptySet => false
  | Re.epsilon => true
  | Re.chr _ => false
  | Re.anyNotNL => false
  | Re.notChar _ => false
  | Re.cat r1 r2 => reNullable r1 && reNullable r2
  | Re.alt r1 r2 => reNullable r1 || reNullable r2
  | Re.star _ => true

/-- Smart alternation constructor, preserving the language. -/
def mkAlt : Re → Re → Re
  | Re.emptySet, r => r
  | r, Re.emptySet => r
  | r1, r2 => Re.alt r1 r2

/-- Smart concatenation constructor, preserving the language. -/
def mkCat : Re → Re → Re
  | Re.emptySet, _ => Re.emptySet
  | _, Re.emptySet => Re.emptySet
  | Re.epsilon, r => r
  | r, Re.epsilon => r
  | r1, r2 => Re.cat r1 r2

/-- Brzozowski derivative of a regular expression by one character. -/
def reDeriv : Re → Char → Re
  | Re.emptySet, _ => Re.emptySet
  | Re.epsilon, _ => Re.emptySet
  | Re.chr c, a => if a = c then Re.epsilon else Re.emptySet
  | Re.anyNotNL, a => if a = '\n' then Re.emptySet else Re.epsilon
  | Re.notChar c, a => if a = c then Re.emptySet else Re.epsilon
  | Re.cat r1 r2, a =>
    if reNullable r1 then mkAlt (mkCat (reDeriv r1 a) r2) (reDeriv r2 a)
    else mkCat (reDeriv r1 a) r2
  | Re.alt r1 r2, a => mkAlt (reDeriv r1 a) (reDeriv r2 a)
  | Re.star r, a => mkCat (reDeriv r a) (Re.star r)

/-- Whether a regular expression matches the whole character list. -/
def reMatches (r : Re) : List Char → Bool
  | [] => reNullable r
  | c :: cs => reMatches (reDeriv r c) cs

/-- A literal string as a regular expression. -/
def reLit (s : String) : Re :=
  s.data.foldr (fun c r => Re.cat (Re.chr c) r) Re.epsilon

/-- The ? quantifier. -/
def reOpt (r : Re) : Re := Re.alt r Re.epsilon

/-- The + quantifier. -/
def rePlus (r : Re) : Re := Re.cat r (Re.star r)

/-- The body of the match_url pattern between the anchors:
https?://bitbucket.org/([^/]+/[^/]+)/? with the dot left unescaped, exactly
as in the source. -/
def bitbucketRe : Re :=
  Re.cat (reLit "http")
    (Re.cat (reOpt (Re.chr 's'))
      (Re.cat (reLit "://bitbucket")
        (Re.cat Re.anyNotNL
          (Re.cat (reLit "org/")
            (Re.cat (rePlus (Re.notChar '/'))
              (Re.cat (Re.chr '/')
                (Re.cat (rePlus (Re.notChar '/'))
                  (reOpt (Re.chr '/')))))))))

/-- The condition of the source on valid_sources:
valid_sources != None and self.repo not in valid_sources. -/
def notWhitelisted (repo : String) : Option (List String) → Bool
  | Option.none => false
  | some srcs => decide (repo ∉ srcs)

namespace BitBucketRepositoryProvider

/-- match_url: whether the anchored pattern matches the repo string.  With ^
anchoring the match at the start and no MULTILINE flag, re.search succeeds
exactly when the pattern body matches the whole string, or matches the whole
string minus a single newline that ends it (Python dollar semantics). -/
def match_url (repo : String) : Bool :=
  reMatches bitbucketRe repo.data ||
    (repo.data.getLast? == some '\n' && reMatches bitbucketRe repo.data.dropLast)

/-- self.cache[k] = v restricted to the get_packages key, as the source uses it. -/
def setCache (p : BitBucketRepositoryProvider) (v : GPValue) : BitBucketRepositoryProvider :=
  ⟨setKey p.cache "get_packages" v, p.repo, p.settings⟩

/-- The dict literal built on success, lines 100 to 113 of the source, with
the key lookups performed in Python evaluation order; a missing key is a
KeyError, which propagates as Except.error before the cache is assigned. -/
def buildPackages (repo : String) (repo_info download : Dict) :
    Except String (List (PyVal × PyVal)) :=
  match pyIndex repo_info "name" with
  | Except.error e => Except.error e
  | Except.ok name =>
    match pyIndex repo_info "description" with
    | Except.error e => Except.error e
    | Except.ok description =>
      match pyIndex repo_info "homepage" with
      | Except.error e => Except.error e
      | Except.ok homepage =>
        match pyIndex repo_info "author" with
        | Except.error e => Except.error e
        | Except.ok author =>
          match pyIndex repo_info "readme" with
          | Except.error e => Except.error e
          | Except.ok readme =>
            match pyIndex repo_info "issues" with
            | Except.error e => Except.error e
            | Except.ok issues =>
              match pyIndex repo_info "donate" with
              | Except.error e => Except.error e
              | Except.ok donate =>
                Except.ok [(name, PyVal.pdict [
                  ("name", name),
                  ("description", description),
                  ("homepage", homepage),
                  ("author", author),
                  ("last_modified", pyGet download "date"),
                  ("download", PyVal.pdict download),
                  ("previous_names", PyVal.plist []),
                  ("labels", PyVal.plist []),
                  ("sources", PyVal.plist [PyVal.str repo]),
                  ("readme", readme),
                  ("issues", issues),
                  ("donate", donate)])]

/-- get_packages, translated line by line from the source.  clientOf models
the construction BitBucketClient(self.settings) together with the network
behavior behind it; the calls field records every API method invoked. -/
def get_packages (p : BitBucketRepositoryProvider)
    (clientOf : Settings → BitBucketClient)
    (valid_sources : Option (List String)) : GPOutcome :=
  match lookupKey "get_packages" p.cache with
  | some r => ⟨Except.ok r, p, []⟩
  | Option.none =>
    -- client = BitBucketClient(self.settings); clientOf p.settings is that client
    if notWhitelisted p.repo valid_sources then
      ⟨Except.ok GPValue.gpFalse, setCache p GPValue.gpFalse, []⟩
    else
      match (clientOf p.settings).repo_info p.repo with
      | Option.none =>
        ⟨Except.ok GPValue.gpFalse, setCache p GPValue.gpFalse,
          [ApiCall.repoInfo p.repo]⟩
      | some repo_info =>
        match (clientOf p.settings).download_info p.repo with
        | Option.none =>
          ⟨Except.ok GPValue.gpFalse, setCache p GPValue.gpFalse,
            [ApiCall.repoInfo p.repo, ApiCall.downloadInfo p.repo]⟩
        | some download =>
          match buildPackages p.repo repo_info download with
          | Except.error e =>
            ⟨Except.error e, p,
              [ApiCall.repoInfo p.repo, ApiCall.downloadInfo p.repo]⟩
          | Except.ok m =>
            ⟨Except.ok (GPValue.gpPackages m), setCache p (GPValue.gpPackages m),
              [ApiCall.repoInfo p.repo, ApiCall.downloadInfo p.repo]⟩

/-- prefetch: call get_packages for its caching side effect, discarding the value. -/
def prefetch (p : BitBucketRepositoryProvider)
    (clientOf : Settings → BitBucketClient) : BitBucketRepositoryProvider :=
  (p.get_packages clientOf Option.none).state

/-- get_renamed_packages: return {}, leaving the instance untouched. -/
def get_renamed_packages (p : BitBucketRepositoryProvider) :
    Dict × BitBucketRepositoryProvider :=
  ([], p)

/-- get_unavailable_packages: return [], leaving the instance untouched. -/
def get_unavailable_packages (p : BitBucketRepositoryProvider) :
    List PyVal × BitBucketRepositoryProvider :=
  ([], p)

end BitBucketRepositoryProvider

open BitBucketRepositoryProvider

/- ----------------------------------------------------------------------
Concrete fixtures, taken from the worked example of the specification:
repo https://bitbucket.org/alice/widget, a fully populated repo-info
response, and a download-info response with and without a date field.
---------------------------------------------------------------------- -/

/-- The example repo URL. -/
def exRepo : String := "https://bitbucket.org/alice/widget"

/-- The example repo-info response. -/
def exRepoInfo : Dict :=
  [("name", PyVal.str "Widget"), ("description", PyVal.str "d"),
   ("homepage", PyVal.str "h"), ("author", PyVal.str "alice"),
   ("readme", PyVal.str "r"), ("issues", PyVal.str "i"),
   ("donate", PyVal.str "don")]

/-- The example download-info response. -/
def exDownload : Dict :=
  [("url", PyVal.str "u"), ("date", PyVal.str "2020-01-01"),
   ("version", PyVal.str "1.0")]

/-- The example download-info response without the optional date field. -/
def exDownloadNoDate : Dict :=
  [("url", PyVal.str "u"), ("version", PyVal.str "1.0")]

/-- An API client on which both calls succeed with the example responses. -/
def exClientOf : Settings → BitBucketClient :=
  fun _ => ⟨fun _ => some exRepoInfo, fun _ => some exDownload⟩

/-- An API client whose download-info response has no date field. -/
def exClientNoDateOf : Settings → BitBucketClient :=
  fun _ => ⟨fun _ => some exRepoInfo, fun _ => some exDownloadNoDate⟩

/-- An API client whose repo-info call fails with the sentinel. -/
def failClientOf : Settings → BitBucketClient :=
  fun _ => ⟨fun _ => Option.none, fun _ => some exDownload⟩

/-- An API client whose calls succeed but return empty dicts, so the
repo-info response is missing every required field. -/
def badClientOf : Settings → BitBucketClient :=
  fun _ => ⟨fun _ => some [], fun _ => some []⟩

/-- The packages mapping get_packages builds from the example responses. -/
def exPackages : List (PyVal × PyVal) :=
  [(PyVal.str "Widget", PyVal.pdict [
    ("name", PyVal.str "Widget"),
    ("description", PyVal.str "d"),
    ("homepage", PyVal.str "h"),
    ("author", PyVal.str "alice"),
    ("last_modified", PyVal.str "2020-01-01"),
    ("download", PyVal.pdict exDownload),
    ("previous_names", PyVal.plist []),
    ("labels", PyVal.plist []),
    ("sources", PyVal.plist [PyVal.str exRepo]),
    ("readme", PyVal.str "r"),
    ("issues", PyVal.str "i"),
    ("donate", PyVal.str "don")])]

/-- A repo-info response that carries every field the success path of
get_packages subscripts. -/
def wellFormedRepoInfo (ri : Dict) : Prop :=
  (lookupKey "name" ri).isSome = true ∧
  (lookupKey "description" ri).isSome = true ∧
  (lookupKey "homepage" ri).isSome = true ∧
  (lookupKey "author" ri).isSome = true ∧
  (lookupKey "readme" ri).isSome = true ∧
  (lookupKey "issues" ri).isSome = true ∧
  (lookupKey "donate" ri).isSome = true

/- ----------------------------------------------------------------------
Helper lemmas about the cache and the happy path, shared by the claim
theorems below.
---------------------------------------------------------------------- -/

/-- Writing a key with setKey makes it the value lookupKey finds. -/
theorem lookupKey_setKey {α : Type} (c : List (String × α)) (k : String) (v : α) :
    lookupKey k (setKey c k v) = some v := by
  induction c with
  | nil => simp [setKey, lookupKey]
  | cons hd tl ih =>
    obtain ⟨k1, v1⟩ := hd
    by_cases h : k1 = k
    · simp [setKey, h, lookupKey]
    · simp [setKey, h, lookupKey, Ne.symm h, ih]

/-- A cache hit: when the memo key is present, get_packages returns the stored
value at once, leaves the state alone, and makes no API calls. -/
theorem get_packages_cache_hit (clientOf : Settings → BitBucketClient)
    (q : BitBucketRepositoryProvider) (vs : Option (List String)) (v : GPValue)
    (h : lookupKey "get_packages" q.cache = some v) :
    q.get_packages clientOf vs = ⟨Except.ok v, q, []⟩ := by
  unfold BitBucketRepositoryProvider.get_packages
  rw [h]

/-- Any call of get_packages that returns normally leaves its returned value
memoized under the get_packages key. -/
theorem get_packages_sets_cache (clientOf : Settings → BitBucketClient)
    (p : BitBucketRepositoryProvider) (vs : Option (List String)) (v : GPValue)
    (h : (p.get_packages clientOf vs).result = Except.ok v) :
    lookupKey "get_packages" (p.get_packages clientOf vs).state.cache = some v := by
  unfold BitBucketRepositoryProvider.get_packages at h ⊢
  cases hcc : lookupKey "get_packages" p.cache with
  | some r =>
    rw [hcc] at h
    simp at h
    subst h
    simp [hcc]
  | none =>
    cases hw : notWhitelisted p.repo vs with
    | true =>
      rw [hcc, hw] at h
      simp at h
      subst h
      simp [BitBucketRepositoryProvider.setCache, lookupKey_setKey]
    | false =>
      cases hri : (clientOf p.settings).repo_info p.repo with
      | none =>
        rw [hcc, hw, hri] at h
        simp at h
        subst h
        simp [BitBucketRepositoryProvider.setCache, lookupKey_setKey]
      | some ri =>
        cases hdl : (clientOf p.settings).download_info p.repo with
        | none =>
          rw [hcc, hw, hri, hdl] at h
          simp at h
          subst h
          simp [BitBucketRepositoryProvider.setCache, lookupKey_setKey]
        | some dl =>
          cases hb : BitBucketRepositoryProvider.buildPackages p.repo ri dl with
          | error e =>
            rw [hcc, hw, hri, hdl] at h
            simp at h
            rw [hb] at h
            simp at h
          | ok m =>
            rw [hcc, hw, hri, hdl] at h
            simp at h
            rw [hb] at h
            simp at h
            subst h
            simp [hb, BitBucketRepositoryProvider.setCache, lookupKey_setKey]

/-- The full success path: with an empty cache, no whitelist restriction, and
both client calls returning dicts that carry the subscripted fields,
get_packages returns the single-entry mapping built by the source. -/
theorem get_packages_success_eq (repo : String) (settings : Settings)
    (clientOf : Settings → BitBucketClient) (ri dl : Dict)
    (nv dv hv av rv iv dov : PyVal)
    (hri : (clientOf settings).repo_info repo = some ri)
    (hdl : (clientOf settings).download_info repo = some dl)
    (hname : lookupKey "name" ri = some nv)
    (hdesc : lookupKey "description" ri = some dv)
    (hhome : lookupKey "homepage" ri = some hv)
    (hauth : lookupKey "author" ri = some av)
    (hread : lookupKey "readme" ri = some rv)
    (hiss : lookupKey "issues" ri = some iv)
    (hdon : lookupKey "donate" ri = some dov) :
    ((initProvider repo settings).get_packages clientOf Option.none).result =
      Except.ok (GPValue.gpPackages [(nv, PyVal.pdict [
        ("name", nv), ("description", dv), ("homepage", hv), ("author", av),
        ("last_modified", pyGet dl "date"), ("download", PyVal.pdict dl),
        ("previous_names", PyVal.plist []), ("labels", PyVal.plist []),
        ("sources", PyVal.plist [PyVal.str repo]),
        ("readme", rv), ("issues", iv), ("donate", dov)])]) := by
  have hb : BitBucketRepositoryProvider.buildPackages repo ri dl =
      Except.ok [(nv, PyVal.pdict [
        ("name", nv), ("description", dv), ("homepage", hv), ("author", av),
        ("last_modified", pyGet dl "date"), ("download", PyVal.pdict dl),
        ("previous_names", PyVal.plist []), ("labels", PyVal.plist []),
        ("sources", PyVal.plist [PyVal.str repo]),
        ("readme", rv), ("issues", iv), ("donate", dov)])] := by
    simp [BitBucketRepositoryProvider.buildPackages, pyIndex,
      hname, hdesc, hhome, hauth, hread, hiss, hdon]
  simp [BitBucketRepositoryProvider.get_packages, initProvider, lookupKey,
    notWhitelisted, hri, hdl, hb]

/-- Claim C1: on a first call where both API calls succeed, get_packages
returns a mapping with exactly one entry, keyed by the name field of the
repo-info result, whose record copies name, description, homepage, author,
readme, issues and donate from the repo-info result, has download equal to
the download-info result, previous_names and labels empty, and sources equal
to the one-element sequence holding the repo URL. -/
theorem c1_get_packages_success (repo : String) (settings : Settings)
    (clientOf : Settings → BitBucketClient) (ri dl : Dict)
    (nv dv hv av rv iv dov : PyVal)
    (hri : (clientOf settings).repo_info repo = some ri)
    (hdl : (clientOf settings).download_info repo = some dl)
    (hname : lookupKey "name" ri = some nv)
    (hdesc : lookupKey "description" ri = some dv)
    (hhome : lookupKey "homepage" ri = some hv)
    (hauth : lookupKey "author" ri = some av)
    (hread : lookupKey "readme" ri = some rv)
    (hiss : lookupKey "issues" ri = some iv)
    (hdon : lookupKey "donate" ri = some dov) :
    ((initProvider repo settings).get_packages clientOf Option.none).result =
      Except.ok (GPValue.gpPackages [(nv, PyVal.pdict [
        ("name", nv), ("description", dv), ("homepage", hv), ("author", av),
        ("last_modified", pyGet dl "date"), ("download", PyVal.pdict dl),
        ("previous_names", PyVal.plist []), ("labels", PyVal.plist []),
        ("sources", PyVal.plist [PyVal.str repo]),
        ("readme", rv), ("issues", iv), ("donate", dov)])]) :=
  get_packages_success_eq repo settings clientOf ri dl nv dv hv av rv iv dov
    hri hdl hname hdesc hhome hauth hread hiss hdon

/-- Witness for C1, at the worked example of the specification. -/
theorem c1_witness :
    ((initProvider exRepo []).get_packages exClientOf Option.none).result =
      Except.ok (GPValue.gpPackages [(PyVal.str "Widget", PyVal.pdict [
        ("name", PyVal.str "Widget"), ("description", PyVal.str "d"),
        ("homepage", PyVal.str "h"), ("author", PyVal.str "alice"),
        ("last_modified", pyGet exDownload "date"),
        ("download", PyVal.pdict exDownload),
        ("previous_names", PyVal.plist []), ("labels", PyVal.plist []),
        ("sources", PyVal.plist [PyVal.str exRepo]),
        ("readme", PyVal.str "r"), ("issues", PyVal.str "i"),
        ("donate", PyVal.str "don")])]) :=
  c1_get_packages_success exRepo [] exClientOf exRepoInfo exDownload
    (PyVal.str "Widget") (PyVal.str "d") (PyVal.str "h") (PyVal.str "alice")
    (PyVal.str "r") (PyVal.str "i") (PyVal.str "don")
    rfl rfl rfl rfl rfl rfl rfl rfl rfl

/-- Claim C2: once a get_packages call has returned a value (success mapping
or failure sentinel), any later call returns the same value, leaves the state
unchanged, and makes no API-client calls at all. -/
theorem c2_get_packages_memoized (clientOf : Settings → BitBucketClient)
    (p : BitBucketRepositoryProvider) (vs1 vs2 : Option (List String)) (v : GPValue)
    (h : (p.get_packages clientOf vs1).result = Except.ok v) :
    (p.get_packages clientOf vs1).state.get_packages clientOf vs2 =
      ⟨Except.ok v, (p.get_packages clientOf vs1).state, []⟩ :=
  get_packages_cache_hit clientOf (p.get_packages clientOf vs1).state vs2 v
    (get_packages_sets_cache clientOf p vs1 v h)

/-- Witness for C2: a first call that memoized the failure sentinel, replayed
by a second call with no client activity. -/
theorem c2_witness :
    ((initProvider "u" []).get_packages exClientOf (some [])).result =
        Except.ok GPValue.gpFalse ∧
      ((initProvider "u" []).get_packages exClientOf (some [])).state.get_packages
          exClientOf Option.none =
        ⟨Except.ok GPValue.gpFalse,
          ((initProvider "u" []).get_packages exClientOf (some [])).state, []⟩ :=
  ⟨rfl, c2_get_packages_memoized exClientOf (initProvider "u" []) (some [])
    Option.none GPValue.gpFalse rfl⟩

/-- Claim C3: with an empty cache and a valid_sources list that does not hold
the repo URL, get_packages memoizes and returns the failure sentinel and the
API client is never invoked (the call trace is empty). -/
theorem c3_valid_sources_excluded (clientOf : Settings → BitBucketClient)
    (p : BitBucketRepositoryProvider) (srcs : List String)
    (hc : p.cache = []) (hx : p.repo ∉ srcs) :
    p.get_packages clientOf (some srcs) =
      ⟨Except.ok GPValue.gpFalse,
        ⟨[("get_packages", GPValue.gpFalse)], p.repo, p.settings⟩, []⟩ := by
  have hl : lookupKey "get_packages" p.cache = Option.none := by rw [hc]; rfl
  have hw : notWhitelisted p.repo (some srcs) = true := by
    simp [notWhitelisted, hx]
  simp [BitBucketRepositoryProvider.get_packages, hl, hw, lookupKey,
    BitBucketRepositoryProvider.setCache, hc, setKey]

/-- Witness for C3, with a whitelist that holds a different URL. -/
theorem c3_witness :
    (initProvider exRepo []).get_packages exClientOf (some ["https://example.com/x"]) =
      ⟨Except.ok GPValue.gpFalse,
        ⟨[("get_packages", GPValue.gpFalse)], exRepo, []⟩, []⟩ :=
  c3_valid_sources_excluded exClientOf (initProvider exRepo [])
    ["https://example.com/x"] rfl (by decide)

/-- Claim C4: with an empty cache and a passing valid_sources check, a failed
repo-info call makes get_packages memoize and return the failure sentinel,
and the download-info call is never made (the trace holds only the repo-info
call). -/
theorem c4_repo_info_failure (clientOf : Settings → BitBucketClient)
    (p : BitBucketRepositoryProvider) (valid_sources : Option (List String))
    (hc : p.cache = [])
    (hw : notWhitelisted p.repo valid_sources = false)
    (hri : (clientOf p.settings).repo_info p.repo = Option.none) :
    p.get_packages clientOf valid_sources =
      ⟨Except.ok GPValue.gpFalse,
        ⟨[("get_packages", GPValue.gpFalse)], p.repo, p.settings⟩,
        [ApiCall.repoInfo p.repo]⟩ := by
  have hl : lookupKey "get_packages" p.cache = Option.none := by rw [hc]; rfl
  simp [BitBucketRepositoryProvider.get_packages, hl, hw, hri, lookupKey,
    BitBucketRepositoryProvider.setCache, hc, setKey]

/-- Witness for C4, with a client whose repo-info call fails. -/
theorem c4_witness :
    (initProvider "u" []).get_packages failClientOf Option.none =
      ⟨Except.ok GPValue.gpFalse,
        ⟨[("get_packages", GPValue.gpFalse)], "u", []⟩,
        [ApiCall.repoInfo "u"]⟩ :=
  c4_repo_info_failure failClientOf (initProvider "u" []) Option.none rfl rfl rfl

/-- Claim C5 counterexample: the claim says match_url returns false for URLs
with a different hosting domain, but the dot in the host part of the pattern
is an unescaped regex wildcard, so the URL below, whose hosting domain is
bitbucket-org rather than bitbucket.org, is accepted. -/
theorem c5_counterexample :
    match_url "https://bitbucket-org/alice/widget" = true := by decide

/-- Claim C5 as amended: match_url accepts http or https URLs of the form
host/owner/name with an optional trailing slash and rejects extra path
segments, missing segments, and schemeless URLs; however, because the dot in
the host pattern is an unescaped wildcard, any single non-newline character
may stand in place of the dot in bitbucket.org, and because the dollar anchor
also matches just before a terminal newline, a URL with one trailing newline
is accepted as well. -/
theorem c5_match_url_amended :
    match_url "https://bitbucket.org/alice/widget" = true ∧
    match_url "http://bitbucket.org/alice/widget" = true ∧
    match_url "https://bitbucket.org/alice/widget/" = true ∧
    match_url "https://bitbucket.org/alice/widget/extra" = false ∧
    match_url "https://bitbucket.org/alice" = false ∧
    match_url "bitbucket.org/alice/widget" = false ∧
    match_url "https://github.com/alice/widget" = false ∧
    match_url "https://bitbucket-org/alice/widget" = true ∧
    match_url "https://bitbucket.org/alice/widget\n" = true := by decide

/-- Claim C6 counterexample: the claim says get_packages never raises, even on
a malformed response; but when repo_info returns a dict with no name field the
subscription repo_info of name raises a KeyError, which propagates out of
get_packages instead of being collapsed to the failure sentinel. -/
theorem c6_counterexample :
    ((initProvider exRepo []).get_packages badClientOf Option.none).result =
      Except.error "KeyError: name" := rfl

/-- Claim C6 as amended: get_packages collapses every failure signalled by the
sentinel (URL not whitelisted, repo-info failure, download-info failure) into
the returned sentinel rather than an exception, and returns normally whenever
every successful repo-info response carries the seven subscripted fields; a
successful response missing one of them, however, raises a KeyError. -/
theorem c6_no_exception_amended (clientOf : Settings → BitBucketClient)
    (p : BitBucketRepositoryProvider) (vs : Option (List String))
    (hwf : ∀ ri, (clientOf p.settings).repo_info p.repo = some ri →
      wellFormedRepoInfo ri) :
    ∃ v, (p.get_packages clientOf vs).result = Except.ok v := by
  unfold BitBucketRepositoryProvider.get_packages
  cases hcc : lookupKey "get_packages" p.cache with
  | some r => exact ⟨r, rfl⟩
  | none =>
    cases hw : notWhitelisted p.repo vs with
    | true => exact ⟨GPValue.gpFalse, by simp⟩
    | false =>
      cases hri : (clientOf p.settings).repo_info p.repo with
      | none => exact ⟨GPValue.gpFalse, by simp⟩
      | some ri =>
        cases hdl : (clientOf p.settings).download_info p.repo with
        | none => exact ⟨GPValue.gpFalse, by simp⟩
        | some dl =>
          obtain ⟨h1, h2, h3, h4, h5, h6, h7⟩ := hwf ri hri
          obtain ⟨nv, e1⟩ := Option.isSome_iff_exists.mp h1
          obtain ⟨dv, e2⟩ := Option.isSome_iff_exists.mp h2
          obtain ⟨hv, e3⟩ := Option.isSome_iff_exists.mp h3
          obtain ⟨av, e4⟩ := Option.isSome_iff_exists.mp h4
          obtain ⟨rv, e5⟩ := Option.isSome_iff_exists.mp h5
          obtain ⟨iv, e6⟩ := Option.isSome_iff_exists.mp h6
          obtain ⟨dov, e7⟩ := Option.isSome_iff_exists.mp h7
          have hb : BitBucketRepositoryProvider.buildPackages p.repo ri dl =
              Except.ok [(nv, PyVal.pdict [
                ("name", nv), ("description", dv), ("homepage", hv), ("author", av),
                ("last_modified", pyGet dl "date"), ("download", PyVal.pdict dl),
                ("previous_names", PyVal.plist []), ("labels", PyVal.plist []),
                ("sources", PyVal.plist [PyVal.str p.repo]),
                ("readme", rv), ("issues", iv), ("donate", dov)])] := by
            simp [BitBucketRepositoryProvider.buildPackages, pyIndex,
              e1, e2, e3, e4, e5, e6, e7]
          exact ⟨GPValue.gpPackages [(nv, PyVal.pdict [
            ("name", nv), ("description", dv), ("homepage", hv), ("author", av),
            ("last_modified", pyGet dl "date"), ("download", PyVal.pdict dl),
            ("previous_names", PyVal.plist []), ("labels", PyVal.plist []),
            ("sources", PyVal.plist [PyVal.str p.repo]),
            ("readme", rv), ("issues", iv), ("donate", dov)])], by simp [hb]⟩

/-- Witness for the amended C6, at the worked example client. -/
theorem c6_witness :
    ∃ v, ((initProvider exRepo []).get_packages exClientOf Option.none).result =
      Except.ok v :=
  c6_no_exception_amended exClientOf (initProvider exRepo []) Option.none
    (fun ri h => by
      have h2 : some exRepoInfo = some ri := h
      obtain rfl := Option.some.inj h2
      exact ⟨rfl, rfl, rfl, rfl, rfl, rfl, rfl⟩)

/-- Claim C7: in every state, get_renamed_packages returns the empty mapping
and get_unavailable_packages returns the empty sequence. -/
theorem c7_stub_methods_empty (p : BitBucketRepositoryProvider) :
    (p.get_renamed_packages).1 = [] ∧ (p.get_unavailable_packages).1 = [] :=
  ⟨rfl, rfl⟩

/-- Claim C8: in the success record, last_modified is the date field of the
download-info result when present and the None marker when absent, and a
missing date causes neither a failure nor an exception. -/
theorem c8_last_modified_from_date (repo : String) (settings : Settings)
    (clientOf : Settings → BitBucketClient) (ri dl : Dict)
    (nv dv hv av rv iv dov : PyVal)
    (hri : (clientOf settings).repo_info repo = some ri)
    (hdl : (clientOf settings).download_info repo = some dl)
    (hname : lookupKey "name" ri = some nv)
    (hdesc : lookupKey "description" ri = some dv)
    (hhome : lookupKey "homepage" ri = some hv)
    (hauth : lookupKey "author" ri = some av)
    (hread : lookupKey "readme" ri = some rv)
    (hiss : lookupKey "issues" ri = some iv)
    (hdon : lookupKey "donate" ri = some dov) :
    ∃ entries : Dict,
      ((initProvider repo settings).get_packages clientOf Option.none).result =
        Except.ok (GPValue.gpPackages [(nv, PyVal.pdict entries)]) ∧
      lookupKey "last_modified" entries = some (pyGet dl "date") ∧
      (lookupKey "date" dl = Option.none → pyGet dl "date" = PyVal.pynone) ∧
      (∀ d, lookupKey "date" dl = some d → pyGet dl "date" = d) := by
  refine ⟨[("name", nv), ("description", dv), ("homepage", hv), ("author", av),
      ("last_modified", pyGet dl "date"), ("download", PyVal.pdict dl),
      ("previous_names", PyVal.plist []), ("labels", PyVal.plist []),
      ("sources", PyVal.plist [PyVal.str repo]),
      ("readme", rv), ("issues", iv), ("donate", dov)],
    get_packages_success_eq repo settings clientOf ri dl nv dv hv av rv iv dov
      hri hdl hname hdesc hhome hauth hread hiss hdon, ?_, ?_, ?_⟩
  · rfl
  · intro hnone
    simp [pyGet, hnone]
  · intro d hd
    simp [pyGet, hd]

/-- Witness for C8, at a download-info response with no date field. -/
theorem c8_witness :
    ∃ entries : Dict,
      ((initProvider exRepo []).get_packages exClientNoDateOf Option.none).result =
        Except.ok (GPValue.gpPackages [(PyVal.str "Widget", PyVal.pdict entries)]) ∧
      lookupKey "last_modified" entries = some (pyGet exDownloadNoDate "date") ∧
      (lookupKey "date" exDownloadNoDate = Option.none →
        pyGet exDownloadNoDate "date" = PyVal.pynone) ∧
      (∀ d, lookupKey "date" exDownloadNoDate = some d →
        pyGet exDownloadNoDate "date" = d) :=
  c8_last_modified_from_date exRepo [] exClientNoDateOf exRepoInfo exDownloadNoDate
    (PyVal.str "Widget") (PyVal.str "d") (PyVal.str "h") (PyVal.str "alice")
    (PyVal.str "r") (PyVal.str "i") (PyVal.str "don")
    rfl rfl rfl rfl rfl rfl rfl rfl rfl

/-- Claim C9: the memoization check precedes the valid_sources check; after a
first call that succeeded, a later call whose valid_sources list excludes the
repo URL still returns the cached success mapping, with no API calls; the
later valid_sources argument is ignored. -/
theorem c9_memo_precedes_valid_sources (clientOf : Settings → BitBucketClient)
    (repo : String) (settings : Settings) (vs0 : Option (List String))
    (l : List String) (m : List (PyVal × PyVal))
    (h : ((initProvider repo settings).get_packages clientOf vs0).result =
      Except.ok (GPValue.gpPackages m))
    (hx : repo ∉ l) :
    ((initProvider repo settings).get_packages clientOf vs0).state.get_packages
        clientOf (some l) =
      ⟨Except.ok (GPValue.gpPackages m),
        ((initProvider repo settings).get_packages clientOf vs0).state, []⟩ :=
  get_packages_cache_hit clientOf
    ((initProvider repo settings).get_packages clientOf vs0).state (some l)
    (GPValue.gpPackages m)
    (get_packages_sets_cache clientOf (initProvider repo settings) vs0
      (GPValue.gpPackages m) h)

/-- Witness for C9: after the example success, a second call whose whitelist
excludes the repo URL still replays the cached mapping. -/
theorem c9_witness :
    ((initProvider exRepo []).get_packages exClientOf Option.none).state.get_packages
        exClientOf (some ["https://example.com/x"]) =
      ⟨Except.ok (GPValue.gpPackages exPackages),
        ((initProvider exRepo []).get_packages exClientOf Option.none).state, []⟩ :=
  c9_memo_precedes_valid_sources exClientOf exRepo [] Option.none
    ["https://example.com/x"] exPackages rfl (by decide)

/-- Claim C10: get_renamed_packages and get_unavailable_packages leave the
provider state untouched: repo, settings and cache are unchanged. -/
theorem c10_stub_methods_frame (p : BitBucketRepositoryProvider) :
    (p.get_renamed_packages).2.repo = p.repo ∧
    (p.get_renamed_packages).2.settings = p.settings ∧
    (p.get_renamed_packages).2.cache = p.cache ∧
    (p.get_unavailable_packages).2.repo = p.repo ∧
    (p.get_unavailable_packages).2.settings = p.settings ∧
    (p.get_unavailable_packages).2.cache = p.cache :=
  ⟨rfl, rfl, rfl, rfl, rfl, rfl⟩
